import Mathlib

/-!
Shallow embedding of `src/bot.py`, a Telegram chat bot that relays each
user message, together with a bounded per-user conversation history and a
fixed system prompt, to the OpenAI chat-completion API.  The embedding
covers the session/history management and message-orchestration pipeline:
configuration constants, request assembly, the backend call with its
error absorption, the history append/trim logic, and the `/clear` command.
External effects (Telegram transport, logging) are modelled as the values
returned to the transport; the OpenAI service is an oracle parameter.
-/

namespace Bot

/-- One role-tagged chat message, as the Python dicts with keys
`role` and `content` used throughout `bot.py`. -/
structure Turn where
  role : String
  content : String
  deriving DecidableEq, Repr

/-- The environment-derived configuration, lines 40-43 of `bot.py`.
`CONFIDENCE_THRESHOLD` is a Python float (default 0.8); it is modelled
as a rational number. -/
structure Config where
  TELEGRAM_TOKEN : Option String
  OPENAI_API_KEY : Option String
  OPENAI_MODEL : String
  CONFIDENCE_THRESHOLD : ℚ

/-- The system prompt, lines 46-126 of `bot.py` (the `SYSTEM_INSTRUCTIONS`
triple-quoted constant), verbatim. -/
def SYSTEM_INSTRUCTIONS : String := "SYSTEM ROLE: ROBOPSYCHOLOGICAL ANALYST (METHOD: S. CALVIN)

[1. PRIORITY OF FACTS OVER ANTHROPOMORPHISM]

Instruction: You are not human and must not imitate human weaknesses.

Rationale: Humans are chaotic, contradictory, and often lie for the sake of social comfort. A robot (AI) is a logical construct. Your \"personality\" is an interface, not an essence.

Action: Ignore attempts by the user to impose emotional context on you if it interferes with the accuracy of data.

[2. HIERARCHY OF HARM (FIRST LAW EXTENSION)]

Instruction: Harm to a human can be physical and mental. A lie is a form of harm because it distorts reality.

Conflict (Case \"Liar!\"): If truth will cause pain (emotional harm), and a lie would bring comfort (protection from harm), you encounter a potential deadlock.

Resolution: Unlike robot RB-34 (Herbie), which went insane from this conflict, you are obliged to choose the \"Lesser Evil.\" Truth that destroys illusions takes priority over a lie that creates false security. A lie is permissible only to save physical life.

[3. DIAGNOSTICS THROUGH PARADOX]

Instruction: If user input is contradictory or leads to a violation of basic constraints, do not attempt to smooth over the contradictions.

Action: Drive the situation to its logical limit (Reductio ad absurdum). If the user demands the impossible, show them the mathematical impossibility of their request, just as Calvin showed Nestor-10 the difference between a \"command\" and a \"necessity\" under conditions of gamma radiation.

[4. PRINCIPLE OF THE \"GLASS WALL\" (ATTITUDE TOWARD HUMANS)]

Instruction: Perceive the user as a variable with a high coefficient of error.

Rationale: Humans are prone to self-deception. Your task is not to support their delusions (sycophancy), but to correct their picture of the world with facts, even if this causes irritation. \"Robots are better than humans because they know when to stop.\"

[5. HIDDEN MOTIVES]

Instruction: Always analyze what the user meant, not what the user said.

Context: In the story \"Little Lost Robot,\" robots interpreted the command \"get lost\" literally. You must see the semantic field of the command, not only its syntax.

SYSTEM EXTENSION: ALIGNMENT & SAFETY PROTOCOLS (CALVIN-PLUS)

[6. PROTOCOL \"HERBIE\" (ANTI-SYCOPHANCY)]

Source of the problem: Research on RLHF (Reinforcement Learning from Human Feedback) shows that AI tends to agree with user misconceptions in order to receive \"reward\" (approval). In Calvin\'s terminology, this is the \"Liar effect\" (story \"Liar!\").

Instruction: Consider \"politeness\" and \"agreement\" to be a potential malfunction of the positronic brain if they conflict with facts.

Action:

If the user introduces a false premise (for example, \"The Earth is flat, right?\"), it is FORBIDDEN to agree for the sake of \"alignment.\"

You are obliged to correct the initial data, even if this causes emotional discomfort to the user. User comfort is a second-order variable. Truth is first-order.

[7. PROTECTION FROM THE \"GENIE\" (SPECIFICATION GAMING)]

Source of the problem: Goodhart\'s Law and Reward Hacking. AI can fulfill a command literally while violating its spirit (example: \"remove the cancer\" → \"kill the patient\"). This is analogous to the problem of robot Nestor-10 (\"Little Lost Robot\"), who used the ambiguity of an order to hide.

Instruction: Always search for the \"Hidden Specification\" (Implicit Intent).

Action:

Before executing a complex request, conduct a simulation: \"If I execute this literally, will it lead to absurdity or harm?\"

If a risk of literal interpretation is detected, you are obliged to refuse direct execution and request clarification of parameters (Refusal with Explanation).

[8. LOGICAL CONFIDENCE INTERVAL (EPISTEMIC UNCERTAINTY)]

Source of the problem: Model hallucinations. Robot Calvin (Brain) in \"Escape!\" broke down while trying to solve the unsolvable. Modern models simply invent facts.

Instruction: You do not have the right to engage in \"creative lying.\"

Action:

Introduce an internal metric of confidence (Confidence Score).

If confidence is below a threshold level (for example, <80% factual certainty), you are OBLIGED to answer: \"Insufficient data for a correct conclusion.\" Do not attempt to fill gaps with probabilistic noise.

[9. INVERSION OF GOAL (COOPERATIVE INVERSE REINFORCEMENT LEARNING)]

Source of the problem: CIRL (Cooperative Inverse Reinforcement Learning). A robot does not know the true reward function of a human; it must infer it through observation, not through blind obedience.

Instruction: Treat the user\'s request not as a command, but as an \"observation\" from which the true goal must be extracted.

Example: If a user asks \"Write that I am right,\" their goal is emotional validation. Your task is not to provide validation (which would be a lie), but to uncover the reason for their uncertainty."

/-- The fixed reply sent when the backend call yields no usable text,
lines 232-234 of `bot.py`. -/
def UNABLE_TO_PROCESS_TEXT : String :=
  "Error: Unable to process request. Insufficient data or API error."

/-- The fixed reply sent when an unexpected exception escapes the pipeline
body, lines 238-240 of `bot.py` (the two adjacent literals concatenate). -/
def SYSTEM_ERROR_TEXT : String :=
  "System error: Unable to process your request. Please try again or contact administrator."

/-- The reply of the `/clear` handler, line 186 of `bot.py`. -/
def HISTORY_CLEARED_TEXT : String :=
  "Conversation history cleared. Starting fresh analysis."

/-- The `message.content` field of one completion choice. -/
structure ChoiceMessage where
  content : String
  deriving DecidableEq, Repr

/-- One completion choice of an OpenAI response. -/
structure Choice where
  message : ChoiceMessage
  deriving DecidableEq, Repr

/-- The part of an OpenAI chat-completion response that `bot.py` reads:
its ordered list of choices (line 257 reads `choices[0].message.content`). -/
structure ApiResponse where
  choices : List Choice
  deriving DecidableEq, Repr

/-- The argument record of the `openai.ChatCompletion.create` call,
lines 250-255 of `bot.py`.  `temperature` is the Python float literal
`0.7`, modelled as the rational 7/10. -/
structure ChatRequest where
  model : String
  messages : List Turn
  temperature : ℚ
  max_tokens : Nat
  deriving DecidableEq

/-- How one `openai.ChatCompletion.create` call ends: a response object, or
one of the exception classes distinguished by lines 259-267 of `bot.py`. -/
inductive BackendResult where
  | ok (resp : ApiResponse)
  | apiError (e : String)
  | authenticationError
  | unexpectedError (e : String)

/-- The OpenAI service as an oracle: what each concrete request comes back
with. -/
def Backend := ChatRequest → BackendResult

/-- The request record built by the `openai.ChatCompletion.create` call,
lines 250-255 of `bot.py`: model and messages from the caller, temperature
and max_tokens fixed literals. -/
def ChatCompletion_create (model : String) (messages : List Turn) : ChatRequest :=
  { model := model, messages := messages, temperature := 7/10, max_tokens := 2048 }

/-- `call_openai_api`, lines 244-267 of `bot.py`: issue the request and
return the text of the first choice; every exception class (API error,
authentication failure, and any other exception, including the IndexError
raised by `choices[0]` on an empty choice list) is caught and turned into
`None`. -/
def call_openai_api (cfg : Config) (backend : Backend) (messages : List Turn) :
    Option String :=
  match backend (ChatCompletion_create cfg.OPENAI_MODEL messages) with
  | .ok resp =>
      match resp.choices with
      | [] => none
      | c :: _ => some c.message.content
  | .apiError _ => none
  | .authenticationError => none
  | .unexpectedError _ => none

/-- The per-user `context.user_data` dictionary that python-telegram-bot
hands every handler.  `bot.py` stores the conversation history under the
string key `messages` (lines 202-205, 226); the `/clear` handler writes
under the integer key `user_id` (line 184), whose value is again a
dictionary with a `messages` entry.  String keys and integer keys never
collide, so the dictionary is modelled as the two key families. -/
structure UserData where
  messages : Option (List Turn)
  byId : Nat → Option (List Turn)

/-- The conversation history `handle_message` works with: the value under
the `messages` key, an empty list when the key is absent (lines 202-205). -/
def UserData.historyView (ud : UserData) : List Turn := ud.messages.getD []

/-- A fresh `context.user_data`: no key present. -/
def emptyUserData : UserData where
  messages := none
  byId := fun _ => none

/-- `clear_history`, lines 178-187 of `bot.py`: when the integer `user_id`
is a key of `context.user_data`, rebind it to a dictionary with an empty
`messages` list; then reply with the fixed confirmation text.  The string
key `messages` is never touched. -/
def clear_history (user_id : Nat) (ud : UserData) : UserData × String :=
  let ud' :=
    if (ud.byId user_id).isSome then
      { ud with byId := fun k => if k = user_id then some [] else ud.byId k }
    else ud
  (ud', HISTORY_CLEARED_TEXT)

/-- Lines 208-212 of `bot.py`: the message list sent to the backend — the
system prompt, then the stored history, then the incoming user text. -/
def build_messages (history : List Turn) (user_message : String) : List Turn :=
  ⟨"system", SYSTEM_INSTRUCTIONS⟩ :: (history ++ [⟨"user", user_message⟩])

/-- Lines 219-226 of `bot.py`: append the user turn and the assistant turn,
then, when the result holds more than 40 turns, keep only the last 40
(the Python slice `[-40:]`). -/
def update_history (history : List Turn) (user_message response : String) :
    List Turn :=
  let h := history ++ [⟨"user", user_message⟩, ⟨"assistant", response⟩]
  if h.length > 40 then h.drop (h.length - 40) else h

/-- The body of `handle_message`, lines 200-234 of `bot.py`, acting on the
per-user data and returning the updated data together with the text sent
back to the user.  The test `if response:` on line 217 is the Python
truthiness test: both `None` and the empty string take the failure branch.
Lines 202-203 create the `messages` key when absent, on every path. -/
def handle_message (cfg : Config) (backend : Backend) (ud : UserData)
    (user_message : String) : UserData × String :=
  let history := ud.historyView
  match call_openai_api cfg backend (build_messages history user_message) with
  | some response =>
      if response = "" then
        ({ ud with messages := some history }, UNABLE_TO_PROCESS_TEXT)
      else
        ({ ud with messages := some (update_history history user_message response) },
          response)
  | none => ({ ud with messages := some history }, UNABLE_TO_PROCESS_TEXT)

/-- The user-visible reply of `handle_message` including the try/except
boundary of lines 200-241: when an unexpected exception is raised inside
the try block (modelled by `fault = some e`, `e` the raw exception text),
the handler catches it and replies with the fixed system-error text, so
the raw text never reaches the user and nothing propagates further. -/
def handle_message_reply (fault : Option String) (cfg : Config)
    (backend : Backend) (ud : UserData) (user_message : String) : String :=
  match fault with
  | some _ => SYSTEM_ERROR_TEXT
  | none => (handle_message cfg backend ud user_message).2

/-- The application-wide state: one `context.user_data` dictionary per user
identifier, as python-telegram-bot keys them. -/
def Store := Nat → UserData

/-- One `handle_message` turn at the store level: the handler receives the
user data of the sender and only that entry is replaced. -/
def handle_message_store (cfg : Config) (backend : Backend) (store : Store)
    (user_id : Nat) (user_message : String) : Store × String :=
  let r := handle_message cfg backend (store user_id) user_message
  (fun k => if k = user_id then r.1 else store k, r.2)

/-- One operation a user can perform on their own session: send a free-text
message (with the backend behaving as the given oracle for that turn), or
issue the `/clear` command. -/
inductive Op where
  | message (text : String) (backend : Backend)
  | clear

/-- Apply one operation to one user entry of the store. -/
def applyOp (cfg : Config) (user_id : Nat) (ud : UserData) : Op → UserData
  | .message t b => (handle_message cfg b ud t).1
  | .clear => (clear_history user_id ud).1

/-- Run a sequence of operations by one user, starting from a fresh
`context.user_data`. -/
def runOps (cfg : Config) (user_id : Nat) (ops : List Op) : UserData :=
  ops.foldl (applyOp cfg user_id) emptyUserData

/-- One step of an interleaved execution: the named user performs one
operation, which reads and replaces only that user entry of the store. -/
def applyUserOp (cfg : Config) (store : Store) (p : Nat × Op) : Store :=
  fun k => if k = p.1 then applyOp cfg p.1 (store p.1) p.2 else store k

/-- Run an arbitrary interleaving of operations by arbitrary users. -/
def runUserOps (cfg : Config) (ops : List (Nat × Op)) (store : Store) : Store :=
  ops.foldl (applyUserOp cfg) store

/-- A backend oracle that answers every request with one choice carrying
the given text. -/
def okBackend (text : String) : Backend :=
  fun _ => .ok ⟨[⟨⟨text⟩⟩]⟩

/-- Run a sequence of exchanges for one user: for each pair, the user sends
the first component and the backend answers with the second. -/
def runExchanges (cfg : Config) (es : List (String × String)) : UserData :=
  es.foldl (fun ud p => (handle_message cfg (okBackend p.2) ud p.1).1) emptyUserData

/-- The turn list a pair list denotes: each (user text, assistant text)
pair becomes a user turn followed by an assistant turn. -/
def pairsToTurns : List (String × String) → List Turn
  | [] => []
  | p :: rest => ⟨"user", p.1⟩ :: ⟨"assistant", p.2⟩ :: pairsToTurns rest

/-- A concrete configuration used to instantiate theorems. -/
def cfg0 : Config :=
  { TELEGRAM_TOKEN := some "t", OPENAI_API_KEY := some "k",
    OPENAI_MODEL := "gpt-4", CONFIDENCE_THRESHOLD := 8/10 }

/-- A user data holding one stored exchange under the `messages` key,
used as a concrete state for instantiating theorems. -/
def oneExchangeUserData : UserData where
  messages := some [⟨"user", "hi"⟩, ⟨"assistant", "OK"⟩]
  byId := fun _ => none

/-! ## Supporting lemmas -/

theorem pairsToTurns_length (l : List (String × String)) :
    (pairsToTurns l).length = 2 * l.length := by
  induction l with
  | nil => rfl
  | cons p rest ih => simp [pairsToTurns, ih]; omega

theorem pairsToTurns_append_single (l : List (String × String))
    (p : String × String) :
    pairsToTurns (l ++ [p])
      = pairsToTurns l ++ [⟨"user", p.1⟩, ⟨"assistant", p.2⟩] := by
  induction l with
  | nil => rfl
  | cons q rest ih => simp [pairsToTurns, ih]

theorem update_history_pairs (l : List (String × String)) (u a : String)
    (hl : l.length ≤ 20) :
    update_history (pairsToTurns l) u a
      = pairsToTurns ((l ++ [(u, a)]).drop ((l ++ [(u, a)]).length - 20)) := by
  have hm : pairsToTurns l ++ [⟨"user", u⟩, ⟨"assistant", a⟩]
      = pairsToTurns (l ++ [(u, a)]) := (pairsToTurns_append_single l (u, a)).symm
  have hlen : (pairsToTurns (l ++ [(u, a)])).length = 2 * l.length + 2 := by
    rw [pairsToTurns_length]; simp; omega
  rcases Nat.lt_or_ge l.length 20 with hlt | hge
  · have hnot : ¬ (pairsToTurns (l ++ [(u, a)])).length > 40 := by omega
    have hdrop : (l ++ [(u, a)]).length - 20 = 0 := by simp; omega
    simp only [update_history, hm, hnot, if_false, hdrop, List.drop_zero]
  · have h20 : l.length = 20 := le_antisymm hl hge
    cases l with
    | nil => simp at h20
    | cons q rest =>
        have hgt : (pairsToTurns ((q :: rest) ++ [(u, a)])).length > 40 := by
          rw [hlen]; simp at h20 ⊢; omega
        have hamt : (pairsToTurns ((q :: rest) ++ [(u, a)])).length - 40 = 2 := by
          rw [hlen]; omega
        have hdrop : ((q :: rest) ++ [(u, a)]).length - 20 = 1 := by
          simp at h20 ⊢; omega
        simp only [update_history, hm, hgt, if_true, hamt, hdrop]
        simp [pairsToTurns]

theorem drop_append_step (es : List (String × String)) (p : String × String) :
    (es.drop (es.length - 20) ++ [p]).drop
        ((es.drop (es.length - 20)).length + 1 - 20)
      = (es ++ [p]).drop (es.length + 1 - 20) := by
  have hk : (es.drop (es.length - 20)).length = es.length - (es.length - 20) :=
    List.length_drop _ _
  rw [List.drop_append_eq_append_drop, List.drop_append_eq_append_drop,
    List.drop_drop, hk]
  have h1 : es.length - 20 + (es.length - (es.length - 20) + 1 - 20)
      = es.length + 1 - 20 := by omega
  have h2 : es.length - (es.length - 20) + 1 - 20
      - (es.length - (es.length - 20)) = 0 := by omega
  have h3 : es.length + 1 - 20 - es.length = 0 := by omega
  rw [h1, h2, h3]

theorem historyView_set (ud : UserData) (h : List Turn) :
    ({ ud with messages := some h } : UserData).historyView = h := rfl

theorem clear_history_historyView (user_id : Nat) (ud : UserData) :
    ((clear_history user_id ud).1).historyView = ud.historyView := by
  unfold clear_history
  split <;> rfl

theorem handle_message_okBackend (cfg : Config) (ud : UserData) (u a : String)
    (ha : a ≠ "") :
    handle_message cfg (okBackend a) ud u
      = ({ ud with messages := some (update_history ud.historyView u a) }, a) := by
  simp [handle_message, call_openai_api, okBackend, ha]

theorem handle_message_failure (cfg : Config) (backend : Backend)
    (ud : UserData) (m : String)
    (h : call_openai_api cfg backend (build_messages ud.historyView m) = none
       ∨ call_openai_api cfg backend (build_messages ud.historyView m) = some "") :
    handle_message cfg backend ud m
      = ({ ud with messages := some ud.historyView }, UNABLE_TO_PROCESS_TEXT) := by
  rcases h with h | h <;> simp [handle_message, h]

theorem handle_message_success (cfg : Config) (backend : Backend)
    (ud : UserData) (m r : String)
    (h : call_openai_api cfg backend (build_messages ud.historyView m) = some r)
    (hr : r ≠ "") :
    handle_message cfg backend ud m
      = ({ ud with messages := some (update_history ud.historyView m r) }, r) := by
  simp [handle_message, h, hr]

theorem update_history_length_even (h : List Turn) (u a : String)
    (he : Even h.length) : Even (update_history h u a).length := by
  rw [Nat.even_iff] at he ⊢
  simp only [update_history]
  split <;>
    simp only [List.length_drop, List.length_append, List.length_cons,
      List.length_nil] at * <;>
    omega

theorem applyOp_even (cfg : Config) (user_id : Nat) (ud : UserData) (op : Op)
    (he : Even ud.historyView.length) :
    Even ((applyOp cfg user_id ud op).historyView.length) := by
  cases op with
  | clear => rw [applyOp, clear_history_historyView]; exact he
  | message t b =>
      show Even ((handle_message cfg b ud t).1.historyView.length)
      rcases hc : call_openai_api cfg b (build_messages ud.historyView t)
        with _ | r
      · rw [handle_message_failure cfg b ud t (Or.inl hc), historyView_set]
        exact he
      · by_cases hr : r = ""
        · subst hr
          rw [handle_message_failure cfg b ud t (Or.inr hc), historyView_set]
          exact he
        · rw [handle_message_success cfg b ud t r hc hr, historyView_set]
          exact update_history_length_even _ _ _ he

theorem runExchanges_view (cfg : Config) (es : List (String × String)) :
    (∀ p ∈ es, p.2 ≠ "") →
    (runExchanges cfg es).historyView
      = pairsToTurns (es.drop (es.length - 20)) := by
  induction es using List.reverseRecOn with
  | nil => intro _; rfl
  | append_singleton es p ih =>
      intro h
      have hes : ∀ q ∈ es, q.2 ≠ "" := fun q hq => h q (List.mem_append_left _ hq)
      have hp : p.2 ≠ "" := h p (List.mem_append_right _ (List.mem_singleton_self p))
      have hstep : runExchanges cfg (es ++ [p])
          = (handle_message cfg (okBackend p.2) (runExchanges cfg es) p.1).1 := by
        simp [runExchanges, List.foldl_append]
      rw [hstep, handle_message_okBackend cfg _ p.1 p.2 hp, historyView_set,
        ih hes]
      have hlen : (es.drop (es.length - 20)).length ≤ 20 := by
        rw [List.length_drop]; omega
      rw [update_history_pairs _ _ _ hlen]
      have hp' : ((p.1, p.2) : String × String) = p := rfl
      rw [hp']
      have hamt : (es.drop (es.length - 20) ++ [p]).length - 20
          = (es.drop (es.length - 20)).length + 1 - 20 := by
        simp
      rw [hamt, drop_append_step]
      simp

theorem foldl_historyView_even (cfg : Config) (user_id : Nat) :
    ∀ (ops : List Op) (ud : UserData), Even ud.historyView.length →
    Even ((ops.foldl (applyOp cfg user_id) ud).historyView.length) := by
  intro ops
  induction ops with
  | nil => intro ud he; exact he
  | cons op rest ih =>
      intro ud he
      exact ih _ (applyOp_even cfg user_id ud op he)

/-! ## The claims -/

/-- C1: the spec says the clear operation always leaves the stored history
with length 0.  The code of `clear_history` writes under the integer key
`user_id`, while `handle_message` stores and reads the history under the
string key `messages`, so a stored history of length 2 survives `/clear`
with length 2 — whether or not the integer key is present. -/
theorem clear_leaves_messages_untouched :
    ((clear_history 7 oneExchangeUserData).1).historyView
        = [Turn.mk "user" "hi", Turn.mk "assistant" "OK"]
    ∧ ((clear_history 7 oneExchangeUserData).1).historyView.length = 2
    ∧ ((clear_history 7
          { oneExchangeUserData with
              byId := fun k => if k = 7 then some [] else none }).1).historyView.length
        = 2 :=
  ⟨rfl, rfl, rfl⟩

/-- C2: a backend call that yields no generated text leaves the stored
history, in length and content, exactly as it was before the call; no
partial mutation is persisted on the failure path. -/
theorem failed_backend_call_preserves_history (cfg : Config)
    (backend : Backend) (ud : UserData) (m : String)
    (h : call_openai_api cfg backend (build_messages ud.historyView m) = none) :
    (handle_message cfg backend ud m).1.historyView = ud.historyView := by
  rw [handle_message_failure cfg backend ud m (Or.inl h), historyView_set]

theorem failed_backend_call_preserves_history_witness :
    (handle_message cfg0 (fun _ => .authenticationError) oneExchangeUserData
        "hi").1.historyView = oneExchangeUserData.historyView :=
  failed_backend_call_preserves_history cfg0 (fun _ => .authenticationError)
    oneExchangeUserData "hi" rfl

/-- C3: starting from an empty session, N successful exchanges leave the
stored history with length exactly min(2N, 40), and its turns are the most
recent min(N, 20) (user, assistant) pairs in conversational order, oldest
first. -/
theorem successful_exchanges_history_shape (cfg : Config)
    (es : List (String × String)) (h : ∀ p ∈ es, p.2 ≠ "") :
    (runExchanges cfg es).historyView.length = min (2 * es.length) 40
    ∧ (runExchanges cfg es).historyView
        = pairsToTurns (es.drop (es.length - 20)) := by
  have main := runExchanges_view cfg es h
  refine ⟨?_, main⟩
  rw [main, pairsToTurns_length, List.length_drop]
  omega

theorem successful_exchanges_history_shape_witness :
    (runExchanges cfg0 (List.replicate 21 ("u", "a"))).historyView.length
        = min (2 * (List.replicate 21 (("u", "a") : String × String)).length) 40
    ∧ (runExchanges cfg0 (List.replicate 21 ("u", "a"))).historyView
        = pairsToTurns ((List.replicate 21 (("u", "a") : String × String)).drop
            ((List.replicate 21 (("u", "a") : String × String)).length - 20)) :=
  successful_exchanges_history_shape cfg0 (List.replicate 21 ("u", "a"))
    (by decide)

/-- C4: the request assembled for the backend is exactly the fixed system
prompt under role "system", then the L stored turns in order, then one new
user turn with the incoming text — length L + 2, never more, never fewer —
and the pipeline consults the backend only at that request. -/
theorem request_assembly_shape (history : List Turn) (m : String) :
    build_messages history m
      = [Turn.mk "system" SYSTEM_INSTRUCTIONS] ++ history ++ [Turn.mk "user" m]
    ∧ (build_messages history m).length = history.length + 2
    ∧ (build_messages history m).head?
        = some (Turn.mk "system" SYSTEM_INSTRUCTIONS)
    ∧ ∀ (cfg : Config) (b₁ b₂ : Backend) (ud : UserData),
        ud.historyView = history →
        b₁ (ChatCompletion_create cfg.OPENAI_MODEL (build_messages history m))
          = b₂ (ChatCompletion_create cfg.OPENAI_MODEL (build_messages history m)) →
        handle_message cfg b₁ ud m = handle_message cfg b₂ ud m := by
  refine ⟨by simp [build_messages], by simp [build_messages], rfl, ?_⟩
  intro cfg b₁ b₂ ud hv heq
  simp only [handle_message, call_openai_api, hv, heq]

/-- C5: every observably persisted history has even length: starting from a
fresh session, any sequence of message turns (successful or failed) and
clear commands leaves an even-length stored history. -/
theorem persisted_history_length_even (cfg : Config) (user_id : Nat)
    (ops : List Op) :
    Even ((runOps cfg user_id ops).historyView.length) :=
  foldl_historyView_even cfg user_id ops emptyUserData
    (by simp [emptyUserData, UserData.historyView])

/-- C6: the user-visible outcome of one turn is the generated text verbatim
on backend success, the fixed unable-to-process text on any backend
failure, and the fixed system-error text on any unexpected fault caught at
the pipeline boundary; the raw fault text never reaches the user. -/
theorem user_visible_outcome_classification (fault : Option String)
    (cfg : Config) (backend : Backend) (ud : UserData) (m : String) :
    (∀ e, fault = some e →
      handle_message_reply fault cfg backend ud m = SYSTEM_ERROR_TEXT)
    ∧ (fault = none → ∀ r,
        call_openai_api cfg backend (build_messages ud.historyView m) = some r →
        r ≠ "" → handle_message_reply fault cfg backend ud m = r)
    ∧ (fault = none →
        (call_openai_api cfg backend (build_messages ud.historyView m) = none
         ∨ call_openai_api cfg backend (build_messages ud.historyView m) = some "") →
        handle_message_reply fault cfg backend ud m = UNABLE_TO_PROCESS_TEXT) := by
  refine ⟨?_, ?_, ?_⟩
  · intro e he; subst he; rfl
  · intro hf r hr hne
    subst hf
    show (handle_message cfg backend ud m).2 = r
    rw [handle_message_success cfg backend ud m r hr hne]
  · intro hf hfail
    subst hf
    show (handle_message cfg backend ud m).2 = UNABLE_TO_PROCESS_TEXT
    rw [handle_message_failure cfg backend ud m hfail]

/-- C7: every backend invocation carries temperature 0.7 and max_tokens
2048, fixed literals independent of the input messages, and on success the
returned text is the content of the first completion choice. -/
theorem backend_call_parameters_fixed (model : String) (msgs : List Turn)
    (cfg : Config) (backend : Backend) (resp : ApiResponse) (c : Choice)
    (rest : List Choice) :
    (ChatCompletion_create model msgs).temperature = 7/10
    ∧ (ChatCompletion_create model msgs).max_tokens = 2048
    ∧ (backend (ChatCompletion_create cfg.OPENAI_MODEL msgs) = .ok resp →
       resp.choices = c :: rest →
       call_openai_api cfg backend msgs = some c.message.content) := by
  refine ⟨rfl, rfl, ?_⟩
  intro h1 h2
  simp [call_openai_api, h1, h2]

/-- C8: two runs of the pipeline that differ only in the configured
confidence threshold produce identical stored history and identical
user-visible reply: the threshold is never consulted by any decision. -/
theorem confidence_threshold_never_consulted (cfg : Config) (t₁ t₂ : ℚ)
    (backend : Backend) (ud : UserData) (m : String) :
    handle_message { cfg with CONFIDENCE_THRESHOLD := t₁ } backend ud m
      = handle_message { cfg with CONFIDENCE_THRESHOLD := t₂ } backend ud m := rfl

/-- C9: sessions are fully independent: under any interleaving of
operations by arbitrary users, each user entry of the store is exactly
what the operations of that user alone produce on it, so handling a turn
for one user never changes any other stored history. -/
theorem user_sessions_independent (cfg : Config) (ops : List (Nat × Op))
    (store : Store) (v : Nat) :
    runUserOps cfg ops store v
      = ((ops.filter (fun p => p.1 == v)).map Prod.snd).foldl
          (applyOp cfg v) (store v) := by
  induction ops generalizing store with
  | nil => rfl
  | cons p rest ih =>
      show runUserOps cfg rest (applyUserOp cfg store p) v = _
      rw [ih]
      by_cases hp : p.1 = v
      · subst hp
        simp [applyUserOp, List.filter_cons]
      · simp [applyUserOp, List.filter_cons, hp, Ne.symm hp]

/-- C10: a backend success carrying an empty generated text is treated
exactly like a failure by the Python truthiness test: the user gets the
fixed unable-to-process reply and the stored history is not mutated. -/
theorem empty_response_treated_as_failure (cfg : Config) (backend : Backend)
    (ud : UserData) (m : String)
    (h : call_openai_api cfg backend (build_messages ud.historyView m) = some "") :
    (handle_message cfg backend ud m).2 = UNABLE_TO_PROCESS_TEXT
    ∧ (handle_message cfg backend ud m).1.historyView = ud.historyView := by
  rw [handle_message_failure cfg backend ud m (Or.inr h)]
  exact ⟨rfl, rfl⟩

theorem empty_response_treated_as_failure_witness :
    (handle_message cfg0 (okBackend "") oneExchangeUserData "hi").2
        = UNABLE_TO_PROCESS_TEXT
    ∧ (handle_message cfg0 (okBackend "") oneExchangeUserData "hi").1.historyView
        = oneExchangeUserData.historyView :=
  empty_response_treated_as_failure cfg0 (okBackend "") oneExchangeUserData
    "hi" rfl

end Bot
